import Mathlib

/-!
Verification of the Automated-BiLingual-Complaint-System training pipeline.

This file is a shallow embedding, in Lean 4, of the logic of
`src/train/submit_train_pipeline.py` and
`src/train/components/hf_model_test.py`:

* the conditional-deployment gate of the pipeline (`dsl.If` on
  `best_f1_score > threshold`, guarded by the `deploy` flag);
* the label maps built by dict comprehensions at submission time and inside
  the testing component;
* the experiment-name sanitizer `build_experiment_name`;
* the metric computations of the testing component (sklearn
  `precision_score` / `recall_score` / `f1_score` with `average='weighted'`
  and `average=None`, and `confusion_matrix` with an explicit `labels=`
  argument);
* the control flow of `test_huggingface_model_component` around its single
  `try`/`except` block, including the Slack notification helper
  `send_slack_message` and its internal `try`/`except` around the HTTP post.

Modelling conventions: Python floats are modelled as rationals (`ℚ`), since
the properties at stake concern comparisons and lengths, not rounding;
machine learning externals (TensorFlow loading, prediction) are abstracted
into the `y_true` / `y_pred` integer lists they produce, or into an abstract
exception event; Python strings are Lean `String`s and Python lists are Lean
`List`s.
-/

namespace ComplaintPipeline

/-! ### Deployment gate (`submit_train_pipeline.py`, lines 128-133)

The Python source guards the registration/deployment branch with
`if deploy_params.get("deploy") == True:` and, inside it, a
`dsl.If(best_f1_score > threshold)` condition.  The branch containing
`register_model_component` and `deploy_model_component` therefore runs
exactly when the flag is set and the strict comparison holds. -/

/-- Whether the registration/deployment branch of the pipeline is triggered:
the `deploy` configuration flag must be set, and `best_f1_score >
f1_score_threshold` must hold strictly (`dsl.If` condition). -/
def deploymentTriggered (deploy_flag : Bool) (best_f1_score f1_score_threshold : ℚ) : Bool :=
  deploy_flag && decide (f1_score_threshold < best_f1_score)

/-! ### Label maps

`submit_train_pipeline.py` line 179 builds
`label_2_idx_map = {label: idx for idx, label in enumerate(unique_label_values)}`
and line 180 builds `idx_2_label_map = {idx: label for label, idx in
label_2_idx_map.items()}`; `hf_model_test.py` line 123 builds the same
inverse map `idx_2_label_map = {v:k for k,v in label_map.items()}`.

Python dicts are modelled as association lists in insertion order, looked up
with `List.lookup` (first match).  For pairwise-distinct keys — the regime
of every claim, since the labels come from a configured list of unique label
values — a dict comprehension inserts each key exactly once, so the dict's
items are exactly the generated pairs in generation order and first-match
lookup coincides with Python dict lookup. -/

/-- `{label: idx for idx, label in enumerate(labels)}` as an association
list in insertion order. -/
def label_2_idx_map (labels : List String) : List (String × Nat) :=
  labels.enum.map (fun p => (p.2, p.1))

/-- `{v: k for k, v in label_map.items()}` (equivalently
`{idx: label for label, idx in label_map.items()}`) as an association list
in insertion order. -/
def idx_2_label_map (label_map : List (String × Nat)) : List (Nat × String) :=
  label_map.map (fun p => (p.2, p.1))

/-- `list(idx_2_label_map.values())`: the label names in the value (dense
index) order of the label map. -/
def idx_2_label_values (label_map : List (String × Nat)) : List String :=
  (idx_2_label_map label_map).map (fun p => p.2)

/-- `idx_2_label_map.get(i)` (`hf_model_test.py` lines 163-164): decode a
predicted or true class index back to its label name, `none` when the index
is not a key of the map. -/
def decode (label_map : List (String × Nat)) (i : Nat) : Option String :=
  (idx_2_label_map label_map).lookup i

/-! ### Experiment-name sanitizer (`hf_model_test.py`, lines 102-113)

`build_experiment_name` lowercases (modelled with ASCII lowercasing, which
agrees with Python on the character classes the claims are about, since
every character outside `[a-z0-9-]` is replaced by a hyphen immediately
afterwards), replaces invalid characters by hyphens, prepends `'a'` when the
first character is not a lowercase letter or digit, truncates to 128
characters, and strips trailing hyphens. -/

/-- The regex class `[a-z0-9]` of `build_experiment_name`. -/
def isLowerAlnum (c : Char) : Bool :=
  ('a' ≤ c && c ≤ 'z') || ('0' ≤ c && c ≤ '9')

/-- The character class `[a-z0-9-]` kept by `re.sub(r'[^a-z0-9-]', '-', name)`. -/
def isValidExperimentChar (c : Char) : Bool :=
  isLowerAlnum c || c == '-'

/-- `name.lower()` followed by `re.sub(r'[^a-z0-9-]', '-', name)`. -/
def sanitize (s : List Char) : List Char :=
  (s.map Char.toLower).map (fun c => if isValidExperimentChar c then c else '-')

/-- `if not re.match(r'^[a-z0-9]', name): name = 'a' + name`. -/
def frontGuard (l : List Char) : List Char :=
  match l with
  | [] => 'a' :: []
  | c :: cs => if isLowerAlnum c then c :: cs else 'a' :: c :: cs

/-- `name.rstrip('-')`: drop trailing hyphens. -/
def rstripHyphens (l : List Char) : List Char :=
  (l.reverse.dropWhile (fun c => c == '-')).reverse

/-- `build_experiment_name` on the underlying character list: lowercase and
substitute, guard the first character, truncate to 128 (`name[:128]`), strip
trailing hyphens. -/
def build_experiment_name_core (s : List Char) : List Char :=
  rstripHyphens ((frontGuard (sanitize s)).take 128)

/-- `build_experiment_name` (`hf_model_test.py` lines 102-113). -/
def build_experiment_name (experiment_name : String) : String :=
  ⟨build_experiment_name_core experiment_name.data⟩

/-! ### sklearn metric computations (`hf_model_test.py`, lines 160-177)

`precision_score` / `recall_score` / `f1_score` are called without a
`labels=` argument, so sklearn computes them over the sorted set of distinct
labels occurring in `y_true` or `y_pred` (its `unique_labels`); with
`average='weighted'` it returns the support-weighted average of the
per-label values, and with `average=None` the per-label array itself.
sklearn's default `zero_division` turns 0/0 into 0. -/

/-- Insert into a sorted list, preserving ascending order. -/
def insertSorted (x : Nat) : List Nat → List Nat
  | [] => [x]
  | y :: ys => if x ≤ y then x :: y :: ys else y :: insertSorted x ys

/-- Ascending insertion sort (structural recursion, so that proofs can
evaluate it). -/
def sortAsc (l : List Nat) : List Nat :=
  l.foldr insertSorted []

/-- sklearn's `unique_labels(y_true, y_pred)`: the distinct labels occurring
in `y_true` or `y_pred`, sorted ascending. -/
def presentLabels (y_true y_pred : List Nat) : List Nat :=
  sortAsc ((y_true ++ y_pred).dedup)

/-- Number of positions where both the true and the predicted label are `l`. -/
def truePositives (l : Nat) (y_true y_pred : List Nat) : Nat :=
  (y_true.zip y_pred).countP (fun q => q.1 == l && q.2 == l)

/-- Per-label precision: true positives over predicted-positive count, 0 when
nothing is predicted as `l` (sklearn `zero_division=0`). -/
def precisionOf (l : Nat) (y_true y_pred : List Nat) : ℚ :=
  if y_pred.count l = 0 then 0
  else (truePositives l y_true y_pred : ℚ) / (y_pred.count l : ℚ)

/-- Per-label recall: true positives over true-label count, 0 when `l` never
occurs in `y_true`. -/
def recallOf (l : Nat) (y_true y_pred : List Nat) : ℚ :=
  if y_true.count l = 0 then 0
  else (truePositives l y_true y_pred : ℚ) / (y_true.count l : ℚ)

/-- Per-label F1: harmonic mean of precision and recall, 0 when both vanish. -/
def f1Of (l : Nat) (y_true y_pred : List Nat) : ℚ :=
  let p := precisionOf l y_true y_pred
  let r := recallOf l y_true y_pred
  if p + r = 0 then 0 else 2 * p * r / (p + r)

/-- `precision_score(y_true, y_pred, average=None)` (line 175): one entry per
label present in `y_true` or `y_pred`, in sorted label order. -/
def precision_score_none (y_true y_pred : List Nat) : List ℚ :=
  (presentLabels y_true y_pred).map (fun l => precisionOf l y_true y_pred)

/-- `recall_score(y_true, y_pred, average=None)` (line 176). -/
def recall_score_none (y_true y_pred : List Nat) : List ℚ :=
  (presentLabels y_true y_pred).map (fun l => recallOf l y_true y_pred)

/-- `f1_score(y_true, y_pred, average=None)` (line 177). -/
def f1_score_none (y_true y_pred : List Nat) : List ℚ :=
  (presentLabels y_true y_pred).map (fun l => f1Of l y_true y_pred)

/-- Support-weighted average of a per-label metric over the present labels,
0 when the total support is 0. -/
def weightedAverage (y_true y_pred : List Nat) (m : Nat → ℚ) : ℚ :=
  let ls := presentLabels y_true y_pred
  let total : ℚ := (ls.map (fun l => (y_true.count l : ℚ))).sum
  if total = 0 then 0
  else (ls.map (fun l => (y_true.count l : ℚ) * m l)).sum / total

/-- `precision_score(y_true, y_pred, average='weighted')` (line 171). -/
def precision_score_weighted (y_true y_pred : List Nat) : ℚ :=
  weightedAverage y_true y_pred (fun l => precisionOf l y_true y_pred)

/-- `recall_score(y_true, y_pred, average='weighted')` (line 172). -/
def recall_score_weighted (y_true y_pred : List Nat) : ℚ :=
  weightedAverage y_true y_pred (fun l => recallOf l y_true y_pred)

/-- `f1_score(y_true, y_pred, average='weighted')` (line 173). -/
def f1_score_weighted (y_true y_pred : List Nat) : ℚ :=
  weightedAverage y_true y_pred (fun l => f1Of l y_true y_pred)

/-- sklearn `confusion_matrix(y_true, y_pred, labels=labels)`: entry `(i, j)`
counts the samples with true label `labels[i]` and predicted label
`labels[j]`; samples whose true or predicted label is outside `labels` are
counted nowhere. -/
def confusion_matrix {α : Type} [DecidableEq α]
    (y_true y_pred labels : List α) : List (List Nat) :=
  labels.map (fun t => labels.map (fun p =>
    (y_true.zip y_pred).countP (fun q => decide (q.1 = t) && decide (q.2 = p))))

/-- The confusion matrix built at lines 163-169: indices are decoded through
`idx_2_label_map.get` (which yields `None` for unknown indices) and the
matrix is computed over `labels=list(idx_2_label_map.values())`. -/
def componentConfusionMatrix (label_map : List (String × Nat))
    (y_true y_pred : List Nat) : List (List Nat) :=
  confusion_matrix (y_true.map (decode label_map)) (y_pred.map (decode label_map))
    ((idx_2_label_values label_map).map some)

/-- The `metrics_information` record assembled at lines 185-192 and written
as JSON to the metrics artifact path (the per-label fields are kept as lists
rather than JSON-encoded strings). -/
structure MetricsInformation where
  huggingface_model_name : String
  precision : ℚ
  «recall» : ℚ
  f1 : ℚ
  precision_per_label : List ℚ
  recall_per_label : List ℚ
  f1_per_label : List ℚ
deriving DecidableEq

/-- Lines 171-177 and 185-192: all metrics the component computes from the
true and predicted label indices. -/
def computeMetricsInformation (huggingface_model_name : String)
    (y_true y_pred : List Nat) : MetricsInformation :=
  { huggingface_model_name := huggingface_model_name
    precision := precision_score_weighted y_true y_pred
    «recall» := recall_score_weighted y_true y_pred
    f1 := f1_score_weighted y_true y_pred
    precision_per_label := precision_score_none y_true y_pred
    recall_per_label := recall_score_none y_true y_pred
    f1_per_label := f1_score_none y_true y_pred }

/-! ### Slack notification helper (`hf_model_test.py`, lines 49-100)

`send_slack_message` builds a payload whose color and headline marker depend
on `is_success`, posts it, and catches any `requests` transport exception
(printing it); it never re-raises.  The transport is modelled by a boolean
`transportFails` oracle: the helper returns the attempted message together
with a `delivered` flag, and has no error outcome — mirroring that the
`except` clause swallows the transport failure. -/

/-- The Slack payload fields of the single attachment built at lines 65-94. -/
structure SlackMessage where
  color : String
  pretext : String
  component_name : String
  execution_date : String
  execution_time : String
  duration : String
deriving DecidableEq

/-- One attempted notification: the payload that was posted and whether the
post succeeded (`delivered = false` means the transport raised and the
exception was caught and printed). -/
structure SlackAttempt where
  message : SlackMessage
  delivered : Bool
deriving DecidableEq

/-- `requests.post(webhook_url, json=message)`: raises a transport exception
exactly when the oracle says so. -/
def requests_post (transportFails : Bool) (_webhook_url : String)
    (_message : SlackMessage) : Except String Unit :=
  if transportFails then Except.error "RequestException" else Except.ok ()

/-- `send_slack_message` (lines 49-100): builds the payload from
`is_success`, posts it, and catches a transport failure.  Total by
construction — the internal `try`/`except` is the `match` on the post
result. -/
def send_slack_message (transportFails : Bool) (webhook_url : String)
    (message_str : String) (execution_date execution_time duration : String)
    (is_success : Bool) : SlackAttempt :=
  let color := if is_success then "#36a64f" else "FF0000"
  let pretext :=
    if is_success then ":large_green_circle: " ++ message_str
    else ":large_red_circle: " ++ message_str
  let message : SlackMessage :=
    { color := color
      pretext := pretext
      component_name := "Get Data KubeFlow Component"
      execution_date := execution_date
      execution_time := execution_time
      duration := duration ++ " minutes" }
  match requests_post transportFails webhook_url message with
  | Except.ok _ => { message := message, delivered := true }
  | Except.error _ => { message := message, delivered := false }

/-! ### Control flow of `test_huggingface_model_component` (lines 115-227)

The component body is one `try`/`except Exception` block.  Inside the `try`:
an optional "started" notification, then dataset/model loading, prediction
and metric computation, then `reusable_model.uri = model.uri`, metric
logging, the durable JSON write of `metrics_information`, `end_run`, an
optional success notification, and the `(precision, recall, f1)` return.
The `except` clause attempts an optional notification and re-raises the same
exception.

The external world (TensorFlow, the file system, the experiment tracker) is
abstracted into a `BodyEvent`: either the whole computation succeeds and
yields the true/predicted label index lists, or some step raises, before or
after the durable metrics write. -/

/-- The trained-model input artifact of the component (`Input[Model]`): the
component reads `model.path` (line 148) and `model.uri` (line 179) and never
writes to it. -/
structure ModelArtifact where
  uri : String
  path : String
deriving DecidableEq

/-- Outcome of the externally-dependent part of the `try` body. -/
inductive BodyEvent where
  /-- Loading, prediction, metric computation and every side-effect call
  succeed, with these true and predicted label index lists. -/
  | ok (y_true y_pred : List Nat)
  /-- Some step raises exception `e` before the metrics JSON is written;
  `uriSet` records whether line 179 (`reusable_model.uri = model.uri`) had
  already run. -/
  | raiseBeforeWrite (uriSet : Bool) (e : String)
  /-- A step after the metrics JSON write (e.g. `end_run`) raises `e`; the
  metrics computed from `y_true`/`y_pred` are already persisted. -/
  | raiseAfterWrite (y_true y_pred : List Nat) (e : String)

/-- Observable result of one component execution. -/
structure ComponentResult where
  /-- The returned `(precision, recall, f1_score)` triple, or the re-raised
  exception. -/
  returned : Except String (ℚ × ℚ × ℚ)
  /-- The `metrics_information` record durably written to the metrics
  artifact path, if the write was reached. -/
  persisted : Option MetricsInformation
  /-- The URI of the emitted `reusable_model` output, once line 179 has run. -/
  reusable_model_uri : Option String
  /-- The trained-model input artifact after the run (explicit state passing;
  the body never writes to it). -/
  model_final : ModelArtifact
  /-- All notification attempts, in program order. -/
  slackAttempts : List SlackAttempt

/-- Headline prefix shared by the three notification calls of the component. -/
def testComponentMessage (huggingface_model_name suffix_str : String) : String :=
  "KubeFlow Component: Test HuggingFace Model | Model: " ++ huggingface_model_name ++ suffix_str

/-- `test_huggingface_model_component` (lines 115-227) as a function of its
inputs, the transport oracle and the body event.  Faithful control-flow
details: the "started" and completion notifications are attempted only when
`slack_url` is configured; the failure-path notification at lines 221-226 is
sent with `is_success=True` exactly as in the source; the `except` clause
re-raises the same exception. -/
def test_huggingface_model_component_run (slack_url : Option String)
    (transportFails : Bool) (model : ModelArtifact)
    (huggingface_model_name : String) (_label_map : List (String × Nat))
    (execution_date execution_time duration_minutes : String)
    (event : BodyEvent) : ComponentResult :=
  let startAttempts :=
    match slack_url with
    | some url =>
        [send_slack_message transportFails url
          (testComponentMessage huggingface_model_name " started")
          execution_date execution_time "0" true]
    | none => []
  match event with
  | BodyEvent.ok y_true y_pred =>
      let info := computeMetricsInformation huggingface_model_name y_true y_pred
      let successAttempts :=
        match slack_url with
        | some url =>
            [send_slack_message transportFails url
              (testComponentMessage huggingface_model_name " Successfully Tested")
              execution_date execution_time duration_minutes true]
        | none => []
      { returned := Except.ok (info.precision, info.«recall», info.f1)
        persisted := some info
        reusable_model_uri := some model.uri
        model_final := model
        slackAttempts := startAttempts ++ successAttempts }
  | BodyEvent.raiseBeforeWrite uriSet e =>
      let failureAttempts :=
        match slack_url with
        | some url =>
            [send_slack_message transportFails url
              (testComponentMessage huggingface_model_name " Failed to Test")
              execution_date execution_time duration_minutes true]
        | none => []
      { returned := Except.error e
        persisted := none
        reusable_model_uri := if uriSet then some model.uri else none
        model_final := model
        slackAttempts := startAttempts ++ failureAttempts }
  | BodyEvent.raiseAfterWrite y_true y_pred e =>
      let failureAttempts :=
        match slack_url with
        | some url =>
            [send_slack_message transportFails url
              (testComponentMessage huggingface_model_name " Failed to Test")
              execution_date execution_time duration_minutes true]
        | none => []
      { returned := Except.error e
        persisted := some (computeMetricsInformation huggingface_model_name y_true y_pred)
        reusable_model_uri := some model.uri
        model_final := model
        slackAttempts := startAttempts ++ failureAttempts }

/-! ## Supporting lemmas -/

/-- Inserting into a list grows its length by one. -/
theorem length_insertSorted (x : Nat) (l : List Nat) :
    (insertSorted x l).length = l.length + 1 := by
  induction l with
  | nil => rfl
  | cons y ys ih =>
      by_cases h : x ≤ y
      · simp [insertSorted, h]
      · simp [insertSorted, h, ih]

/-- Sorting preserves length. -/
theorem length_sortAsc (l : List Nat) : (sortAsc l).length = l.length := by
  induction l with
  | nil => rfl
  | cons y ys ih => simp [sortAsc, List.foldr] at ih ⊢; rw [length_insertSorted, ih]

/-- The per-label metric arrays all have as many entries as there are
distinct labels present in `y_true` or `y_pred`. -/
theorem length_presentLabels (y_true y_pred : List Nat) :
    (presentLabels y_true y_pred).length = ((y_true ++ y_pred).dedup).length := by
  rw [presentLabels, length_sortAsc]

/-- Looking up `n + i` in `enumFrom n t` is indexing `t` at `i`. -/
theorem lookup_enumFrom {α : Type} (t : List α) :
    ∀ (n i : Nat), (List.enumFrom n t).lookup (n + i) = t.get? i := by
  induction t with
  | nil => intro n i; rfl
  | cons a tt ih =>
      intro n i
      cases i with
      | zero => simp [List.lookup]
      | succ j =>
          have hbeq : (n + (j + 1) == n) = false := by
            rw [beq_eq_false_iff_ne]; omega
          have harith : n + (j + 1) = (n + 1) + j := by omega
          simp only [List.enumFrom, List.lookup, hbeq, List.get?]
          rw [harith]
          exact ih (n + 1) j

/-- In the swapped enumeration of a duplicate-free list, looking up the
element at index `i` returns `n + i`. -/
theorem lookup_swap_enumFrom (t : List String) :
    ∀ (n i : Nat) (l : String), t.Nodup → t.get? i = some l →
      ((List.enumFrom n t).map (fun p => (p.2, p.1))).lookup l = some (n + i) := by
  induction t with
  | nil => intro n i l _ h; simp at h
  | cons a tt ih =>
      intro n i l hnd h
      cases i with
      | zero =>
          have ha : a = l := by simpa using h
          subst ha
          simp [List.lookup]
      | succ j =>
          have hl : tt.get? j = some l := by simpa using h
          have hmem : l ∈ tt := List.get?_mem hl
          have hne : a ≠ l := by
            intro hh; subst hh; exact (List.nodup_cons.mp hnd).1 hmem
          have hbeq : (l == a) = false := by
            rw [beq_eq_false_iff_ne]; exact fun hh => hne hh.symm
          have harith : n + (j + 1) = (n + 1) + j := by omega
          simp only [List.enumFrom, List.map, List.lookup, hbeq]
          rw [harith]
          exact ih (n + 1) j l (List.nodup_cons.mp hnd).2 hl

/-- Deriving the inverse map from the submission-time label map recovers the
enumeration of the configured labels. -/
theorem idx_2_label_map_label_2_idx (labels : List String) :
    idx_2_label_map (label_2_idx_map labels) = labels.enum := by
  rw [idx_2_label_map, label_2_idx_map, List.map_map]
  have hfun : ((fun p : String × Nat => (p.2, p.1)) ∘ fun p : Nat × String => (p.2, p.1))
      = id := by
    funext p
    cases p
    rfl
  rw [hfun, List.map_id]

/-- The value order of the inverse map is exactly the configured label list. -/
theorem idx_2_label_values_label_2_idx (labels : List String) :
    idx_2_label_values (label_2_idx_map labels) = labels := by
  rw [idx_2_label_values, idx_2_label_map_label_2_idx]
  exact List.enum_map_snd labels

/-! ## Claims -/

/-- Claim C1: with the deploy flag enabled, the registration/deployment
branch of the pipeline is gated on the strict comparison `best_f1_score >
threshold` — equality does not trigger deployment, strictly exceeding the
threshold does, and the trigger holds exactly when the strict comparison
holds. -/
theorem deployment_gate_strict (best_f1_score f1_score_threshold : ℚ) :
    (best_f1_score = f1_score_threshold →
      deploymentTriggered true best_f1_score f1_score_threshold = false)
    ∧ (f1_score_threshold < best_f1_score →
      deploymentTriggered true best_f1_score f1_score_threshold = true)
    ∧ (deploymentTriggered true best_f1_score f1_score_threshold = true ↔
      f1_score_threshold < best_f1_score) := by
  refine ⟨fun h => ?_, fun h => ?_, ?_⟩
  · simp [deploymentTriggered, h]
  · simp [deploymentTriggered, h]
  · simp [deploymentTriggered]

/-- Witness for C1, at the spec's own example: threshold `0.75` with
`best_f1_score = 0.75` does not deploy, `best_f1_score = 0.7501` does. -/
theorem deployment_gate_strict_witness :
    deploymentTriggered true (0.75 : ℚ) (0.75 : ℚ) = false
    ∧ deploymentTriggered true (0.7501 : ℚ) (0.75 : ℚ) = true :=
  ⟨(deployment_gate_strict (0.75 : ℚ) (0.75 : ℚ)).1 rfl,
   (deployment_gate_strict (0.7501 : ℚ) (0.75 : ℚ)).2.1 (by norm_num)⟩

/-- Claim C2 is false on the code: the per-label metric calls at lines
175-177 pass no `labels=` argument, so for a label map of size 3 and a test
run in which only label 0 occurs, the persisted per-label arrays have length
1, not 3. -/
theorem per_label_array_length_counterexample :
    ((computeMetricsInformation "bert-base-multilingual-cased" [0] [0]).precision_per_label.length
      == (label_2_idx_map ["credit-card", "mortgage", "loan"]).length) = false
    ∧ (computeMetricsInformation "bert-base-multilingual-cased" [0] [0]).precision_per_label.length = 1
    ∧ (computeMetricsInformation "bert-base-multilingual-cased" [0] [0]).recall_per_label.length = 1
    ∧ (computeMetricsInformation "bert-base-multilingual-cased" [0] [0]).f1_per_label.length = 1
    ∧ (label_2_idx_map ["credit-card", "mortgage", "loan"]).length = 3 := by
  refine ⟨rfl, rfl, rfl, rfl, rfl⟩

/-- Claim C2 amended: the per-label precision, recall and F1 arrays computed
and persisted by the testing component each have length equal to the number
of distinct labels actually appearing in the true or predicted labels of the
test set (which equals the label-map size only when every label appears). -/
theorem per_label_array_lengths (huggingface_model_name : String)
    (y_true y_pred : List Nat) :
    (computeMetricsInformation huggingface_model_name y_true y_pred).precision_per_label.length
      = ((y_true ++ y_pred).dedup).length
    ∧ (computeMetricsInformation huggingface_model_name y_true y_pred).recall_per_label.length
      = ((y_true ++ y_pred).dedup).length
    ∧ (computeMetricsInformation huggingface_model_name y_true y_pred).f1_per_label.length
      = ((y_true ++ y_pred).dedup).length := by
  refine ⟨?_, ?_, ?_⟩ <;>
    simp [computeMetricsInformation, precision_score_none, recall_score_none,
      f1_score_none, length_presentLabels]

/-- Claim C4: the outcome of the testing component does not depend on
whether the notification transport succeeds or fails — the returned metric
triple, the persisted metrics record, the emitted model URI and the model
state are identical in the two runs, and the notification helper always
returns (with the very same payload), never propagating the transport
failure. -/
theorem notification_noninterference (slack_url : Option String)
    (model : ModelArtifact) (huggingface_model_name : String)
    (label_map : List (String × Nat))
    (execution_date execution_time duration_minutes : String)
    (event : BodyEvent) :
    ((test_huggingface_model_component_run slack_url true model huggingface_model_name
        label_map execution_date execution_time duration_minutes event).returned
      = (test_huggingface_model_component_run slack_url false model huggingface_model_name
        label_map execution_date execution_time duration_minutes event).returned)
    ∧ ((test_huggingface_model_component_run slack_url true model huggingface_model_name
        label_map execution_date execution_time duration_minutes event).persisted
      = (test_huggingface_model_component_run slack_url false model huggingface_model_name
        label_map execution_date execution_time duration_minutes event).persisted)
    ∧ ((test_huggingface_model_component_run slack_url true model huggingface_model_name
        label_map execution_date execution_time duration_minutes event).reusable_model_uri
      = (test_huggingface_model_component_run slack_url false model huggingface_model_name
        label_map execution_date execution_time duration_minutes event).reusable_model_uri)
    ∧ ((test_huggingface_model_component_run slack_url true model huggingface_model_name
        label_map execution_date execution_time duration_minutes event).model_final
      = (test_huggingface_model_component_run slack_url false model huggingface_model_name
        label_map execution_date execution_time duration_minutes event).model_final)
    ∧ (∀ (transportFails : Bool) (url message_str d t dur : String) (is_success : Bool),
        (send_slack_message transportFails url message_str d t dur is_success).message
          = (send_slack_message false url message_str d t dur is_success).message) := by
  refine ⟨?_, ?_, ?_, ?_, fun tf url m d t dur s => ?_⟩
  · cases event <;> rfl
  · cases event <;> rfl
  · cases event <;> rfl
  · cases event <;> rfl
  · cases tf <;> rfl

/-- Claim C5: every exception of the component body is re-raised unchanged
to the caller (never swallowed, never replaced by a result), and when a
notification endpoint is configured the failure path attempts the
failure-completion notification (after the start notification) before
re-raising. -/
theorem failure_caught_notified_reraised (slack_url : Option String)
    (transportFails : Bool) (model : ModelArtifact)
    (huggingface_model_name : String) (label_map : List (String × Nat))
    (execution_date execution_time duration_minutes : String) :
    (∀ (uriSet : Bool) (e : String),
      (test_huggingface_model_component_run slack_url transportFails model
        huggingface_model_name label_map execution_date execution_time duration_minutes
        (BodyEvent.raiseBeforeWrite uriSet e)).returned = Except.error e)
    ∧ (∀ (y_true y_pred : List Nat) (e : String),
      (test_huggingface_model_component_run slack_url transportFails model
        huggingface_model_name label_map execution_date execution_time duration_minutes
        (BodyEvent.raiseAfterWrite y_true y_pred e)).returned = Except.error e)
    ∧ (∀ (url : String) (uriSet : Bool) (e : String),
      (test_huggingface_model_component_run (some url) transportFails model
        huggingface_model_name label_map execution_date execution_time duration_minutes
        (BodyEvent.raiseBeforeWrite uriSet e)).slackAttempts
        = [send_slack_message transportFails url
            (testComponentMessage huggingface_model_name " started")
            execution_date execution_time "0" true,
           send_slack_message transportFails url
            (testComponentMessage huggingface_model_name " Failed to Test")
            execution_date execution_time duration_minutes true])
    ∧ (∀ (url : String) (y_true y_pred : List Nat) (e : String),
      (test_huggingface_model_component_run (some url) transportFails model
        huggingface_model_name label_map execution_date execution_time duration_minutes
        (BodyEvent.raiseAfterWrite y_true y_pred e)).slackAttempts
        = [send_slack_message transportFails url
            (testComponentMessage huggingface_model_name " started")
            execution_date execution_time "0" true,
           send_slack_message transportFails url
            (testComponentMessage huggingface_model_name " Failed to Test")
            execution_date execution_time duration_minutes true]) := by
  refine ⟨fun us e => ?_, fun yt yp e => ?_, fun url us e => rfl, fun url yt yp e => rfl⟩
  · cases slack_url <;> rfl
  · cases slack_url <;> rfl

/-- Claim C6 is false on the code: on a successful run with a configured
endpoint the component attempts two notifications (the "started" one of
lines 135-140 and the success one of lines 209-214), not one. -/
theorem single_notification_per_path_counterexample :
    ((test_huggingface_model_component_run (some "https://hooks.example/T0") false
        { uri := "gs://bucket/model", path := "/gcs/model" }
        "bert-base-multilingual-cased" [] "2024-11-01" "12:00:00" "1.5"
        (BodyEvent.ok [0] [0])).slackAttempts.length == 1) = false
    ∧ (test_huggingface_model_component_run (some "https://hooks.example/T0") false
        { uri := "gs://bucket/model", path := "/gcs/model" }
        "bert-base-multilingual-cased" [] "2024-11-01" "12:00:00" "1.5"
        (BodyEvent.ok [0] [0])).slackAttempts.length = 2 :=
  ⟨rfl, rfl⟩

/-- Claim C6 amended: when a notification endpoint is configured, each
execution attempts exactly two notifications — the start notification first,
then exactly one completion notification: a success message on the success
path and a "Failed to Test" message on the failure path. -/
theorem two_notifications_per_run (url : String) (transportFails : Bool)
    (model : ModelArtifact) (huggingface_model_name : String)
    (label_map : List (String × Nat))
    (execution_date execution_time duration_minutes : String) :
    (∀ event : BodyEvent,
      (test_huggingface_model_component_run (some url) transportFails model
        huggingface_model_name label_map execution_date execution_time duration_minutes
        event).slackAttempts.length = 2)
    ∧ (∀ event : BodyEvent,
      (test_huggingface_model_component_run (some url) transportFails model
        huggingface_model_name label_map execution_date execution_time duration_minutes
        event).slackAttempts.get? 0
        = some (send_slack_message transportFails url
            (testComponentMessage huggingface_model_name " started")
            execution_date execution_time "0" true))
    ∧ (∀ (y_true y_pred : List Nat),
      (test_huggingface_model_component_run (some url) transportFails model
        huggingface_model_name label_map execution_date execution_time duration_minutes
        (BodyEvent.ok y_true y_pred)).slackAttempts.get? 1
        = some (send_slack_message transportFails url
            (testComponentMessage huggingface_model_name " Successfully Tested")
            execution_date execution_time duration_minutes true))
    ∧ (∀ (uriSet : Bool) (e : String),
      (test_huggingface_model_component_run (some url) transportFails model
        huggingface_model_name label_map execution_date execution_time duration_minutes
        (BodyEvent.raiseBeforeWrite uriSet e)).slackAttempts.get? 1
        = some (send_slack_message transportFails url
            (testComponentMessage huggingface_model_name " Failed to Test")
            execution_date execution_time duration_minutes true))
    ∧ (∀ (y_true y_pred : List Nat) (e : String),
      (test_huggingface_model_component_run (some url) transportFails model
        huggingface_model_name label_map execution_date execution_time duration_minutes
        (BodyEvent.raiseAfterWrite y_true y_pred e)).slackAttempts.get? 1
        = some (send_slack_message transportFails url
            (testComponentMessage huggingface_model_name " Failed to Test")
            execution_date execution_time duration_minutes true)) := by
  refine ⟨fun event => ?_, fun event => ?_, fun yt yp => rfl, fun us e => rfl,
    fun yt yp e => rfl⟩
  · cases event <;> rfl
  · cases event <;> rfl

/-- Claim C7 is contradicted by the code's own failure branch: on a failing
run the component re-raises the error, yet the notification attempted at
lines 221-226 is sent with `is_success=True`, so it carries the success
color `#36a64f` and the `:large_green_circle:` headline marker even though
its text says "Failed to Test". -/
theorem failure_notification_marked_success :
    (test_huggingface_model_component_run (some "https://hooks.example/T0") false
        { uri := "gs://bucket/model", path := "/gcs/model" }
        "bert-base-multilingual-cased" [] "2024-11-01" "12:00:00" "1.5"
        (BodyEvent.raiseBeforeWrite false "model load failed")).returned
      = Except.error "model load failed"
    ∧ ((test_huggingface_model_component_run (some "https://hooks.example/T0") false
        { uri := "gs://bucket/model", path := "/gcs/model" }
        "bert-base-multilingual-cased" [] "2024-11-01" "12:00:00" "1.5"
        (BodyEvent.raiseBeforeWrite false "model load failed")).slackAttempts.get? 1).map
          (fun a => a.message.color) = some "#36a64f"
    ∧ ((test_huggingface_model_component_run (some "https://hooks.example/T0") false
        { uri := "gs://bucket/model", path := "/gcs/model" }
        "bert-base-multilingual-cased" [] "2024-11-01" "12:00:00" "1.5"
        (BodyEvent.raiseBeforeWrite false "model load failed")).slackAttempts.get? 1).map
          (fun a => a.message.pretext)
      = some (":large_green_circle: "
          ++ testComponentMessage "bert-base-multilingual-cased" " Failed to Test") :=
  ⟨rfl, rfl, rfl⟩

/-- Claim C8: on every successful run the emitted reusable-model handle
carries exactly the input model's URI, and the trained-model input artifact
is unchanged by the component. -/
theorem reusable_model_passthrough (slack_url : Option String)
    (transportFails : Bool) (model : ModelArtifact)
    (huggingface_model_name : String) (label_map : List (String × Nat))
    (execution_date execution_time duration_minutes : String)
    (y_true y_pred : List Nat) :
    (test_huggingface_model_component_run slack_url transportFails model
        huggingface_model_name label_map execution_date execution_time duration_minutes
        (BodyEvent.ok y_true y_pred)).reusable_model_uri = some model.uri
    ∧ (test_huggingface_model_component_run slack_url transportFails model
        huggingface_model_name label_map execution_date execution_time duration_minutes
        (BodyEvent.ok y_true y_pred)).model_final = model := by
  cases slack_url <;> exact ⟨rfl, rfl⟩

/-- Claim C9: for a configured list of pairwise-distinct labels, the
submission-time label map and the inverse map derived from it (the same
derivation is used at submission time and inside the testing component) are
mutually inverse: forward-then-inverse is the identity on the label names,
and inverse-then-forward is the identity on the dense indices `0..K-1`. -/
theorem label_maps_mutually_inverse (labels : List String) (hnd : labels.Nodup) :
    (∀ l ∈ labels,
      ((label_2_idx_map labels).lookup l).bind
        (fun i => (idx_2_label_map (label_2_idx_map labels)).lookup i) = some l)
    ∧ (∀ i : Nat, i < labels.length →
      ((idx_2_label_map (label_2_idx_map labels)).lookup i).bind
        (fun l => (label_2_idx_map labels).lookup l) = some i) := by
  have hinv : ∀ i : Nat,
      (idx_2_label_map (label_2_idx_map labels)).lookup i = labels.get? i := by
    intro i
    rw [idx_2_label_map_label_2_idx]
    have h := lookup_enumFrom labels 0 i
    simpa [List.enum] using h
  have hfwd : ∀ (i : Nat) (l : String), labels.get? i = some l →
      (label_2_idx_map labels).lookup l = some i := by
    intro i l h
    have h2 := lookup_swap_enumFrom labels 0 i l hnd h
    simpa [label_2_idx_map, List.enum] using h2
  constructor
  · intro l hl
    obtain ⟨i, hi⟩ := List.mem_iff_get?.mp hl
    rw [hfwd i l hi]
    calc (some i).bind (fun j => (idx_2_label_map (label_2_idx_map labels)).lookup j)
        = (idx_2_label_map (label_2_idx_map labels)).lookup i := rfl
      _ = labels.get? i := hinv i
      _ = some l := hi
  · intro i hilt
    obtain ⟨l, hl⟩ : ∃ l, labels.get? i = some l :=
      ⟨labels.get ⟨i, hilt⟩, List.get?_eq_get hilt⟩
    rw [hinv i, hl]
    calc (some l).bind (fun m => (label_2_idx_map labels).lookup m)
        = (label_2_idx_map labels).lookup l := rfl
      _ = some i := hfwd i l hl

/-- Witness for C9 on the concrete distinct label list
`["billing", "fraud"]`. -/
theorem label_maps_mutually_inverse_witness :
    ((label_2_idx_map ["billing", "fraud"]).lookup "fraud").bind
      (fun i => (idx_2_label_map (label_2_idx_map ["billing", "fraud"])).lookup i)
      = some "fraud"
    ∧ ((idx_2_label_map (label_2_idx_map ["billing", "fraud"])).lookup 0).bind
      (fun l => (label_2_idx_map ["billing", "fraud"]).lookup l) = some 0 :=
  ⟨(label_maps_mutually_inverse ["billing", "fraud"] (by decide)).1 "fraud" (by decide),
   (label_maps_mutually_inverse ["billing", "fraud"] (by decide)).2 0 (by decide)⟩

/-- A pair count over zipped lists is zero when the wanted first component
never occurs in the first list. -/
theorem countP_pair_eq_zero_left {α : Type} [DecidableEq α]
    (ytd ypd : List α) (t p : α) (hnt : t ∉ ytd) :
    (ytd.zip ypd).countP (fun q => decide (q.1 = t) && decide (q.2 = p)) = 0 := by
  rw [List.countP_eq_zero]
  rintro ⟨q1, q2⟩ hq hcontra
  have h1 : q1 ∈ ytd := (List.of_mem_zip hq).1
  have heq : q1 = t := of_decide_eq_true ((Bool.and_eq_true _ _).mp hcontra).1
  exact hnt (heq ▸ h1)

/-- A pair count over zipped lists is zero when the wanted second component
never occurs in the second list. -/
theorem countP_pair_eq_zero_right {α : Type} [DecidableEq α]
    (ytd ypd : List α) (t p : α) (hnp : p ∉ ypd) :
    (ytd.zip ypd).countP (fun q => decide (q.1 = t) && decide (q.2 = p)) = 0 := by
  rw [List.countP_eq_zero]
  rintro ⟨q1, q2⟩ hq hcontra
  have h2 : q2 ∈ ypd := (List.of_mem_zip hq).2
  have heq : q2 = p := of_decide_eq_true ((Bool.and_eq_true _ _).mp hcontra).2
  exact hnp (heq ▸ h2)

/-- Claim C3: for a label map built from `K` pairwise-distinct configured
labels, the component's confusion matrix is `K × K`, its row/column order is
the label map's value order (the configured label order), and a label never
observed among the decoded true or predicted classes contributes an all-zero
row and an all-zero column. -/
theorem confusion_matrix_is_KxK (labels : List String) (y_true y_pred : List Nat)
    (_hnd : labels.Nodup) :
    (componentConfusionMatrix (label_2_idx_map labels) y_true y_pred).length = labels.length
    ∧ (∀ row ∈ componentConfusionMatrix (label_2_idx_map labels) y_true y_pred,
        row.length = labels.length)
    ∧ idx_2_label_values (label_2_idx_map labels) = labels
    ∧ (∀ (i : Nat) (l : String), labels.get? i = some l →
        some l ∉ y_true.map (decode (label_2_idx_map labels)) →
        some l ∉ y_pred.map (decode (label_2_idx_map labels)) →
        ((componentConfusionMatrix (label_2_idx_map labels) y_true y_pred).getD i []).all
            (fun n => n == 0) = true
        ∧ (componentConfusionMatrix (label_2_idx_map labels) y_true y_pred).all
            (fun row => row.getD i 0 == 0) = true) := by
  have hvals := idx_2_label_values_label_2_idx labels
  have hM : componentConfusionMatrix (label_2_idx_map labels) y_true y_pred
      = (labels.map some).map (fun t => (labels.map some).map (fun p =>
          ((y_true.map (decode (label_2_idx_map labels))).zip
            (y_pred.map (decode (label_2_idx_map labels)))).countP
            (fun q => decide (q.1 = t) && decide (q.2 = p)))) := by
    rw [componentConfusionMatrix, confusion_matrix, hvals]
  refine ⟨?_, ?_, hvals, ?_⟩
  · rw [hM]; simp
  · intro row hrow
    rw [hM] at hrow
    obtain ⟨t, _, rfl⟩ := List.mem_map.mp hrow
    simp
  · intro i l hget hnt hnp
    have hMi : (componentConfusionMatrix (label_2_idx_map labels) y_true y_pred).get? i
        = some ((labels.map some).map (fun p =>
            ((y_true.map (decode (label_2_idx_map labels))).zip
              (y_pred.map (decode (label_2_idx_map labels)))).countP
            (fun q => decide (q.1 = some l) && decide (q.2 = p)))) := by
      rw [hM, List.get?_map, List.get?_map, hget]
      rfl
    constructor
    · rw [List.getD_eq_get?, hMi]
      rw [show (some ((labels.map some).map (fun p =>
            ((y_true.map (decode (label_2_idx_map labels))).zip
              (y_pred.map (decode (label_2_idx_map labels)))).countP
            (fun q => decide (q.1 = some l) && decide (q.2 = p))))).getD []
          = (labels.map some).map (fun p =>
            ((y_true.map (decode (label_2_idx_map labels))).zip
              (y_pred.map (decode (label_2_idx_map labels)))).countP
            (fun q => decide (q.1 = some l) && decide (q.2 = p))) from rfl]
      rw [List.all_eq_true]
      intro x hx
      obtain ⟨p, _, rfl⟩ := List.mem_map.mp hx
      rw [countP_pair_eq_zero_left _ _ (some l) p hnt]
      rfl
    · rw [List.all_eq_true, hM]
      intro row hrow
      obtain ⟨t, _, rfl⟩ := List.mem_map.mp hrow
      have hrowi : ((labels.map some).map (fun p =>
            ((y_true.map (decode (label_2_idx_map labels))).zip
              (y_pred.map (decode (label_2_idx_map labels)))).countP
            (fun q => decide (q.1 = t) && decide (q.2 = p)))).get? i
          = some (((y_true.map (decode (label_2_idx_map labels))).zip
              (y_pred.map (decode (label_2_idx_map labels)))).countP
            (fun q => decide (q.1 = t) && decide (q.2 = some l))) := by
        rw [List.get?_map, List.get?_map, hget]
        rfl
      rw [List.getD_eq_get?, hrowi]
      rw [countP_pair_eq_zero_right _ _ t (some l) hnp]
      rfl

/-- Witness for C3 with labels `["a", "b"]` and a test set in which only
index 0 (label "a") occurs: label "b" at index 1 yields an all-zero row and
column. -/
theorem confusion_matrix_is_KxK_witness :
    ((componentConfusionMatrix (label_2_idx_map ["a", "b"]) [0] [0]).getD 1 []).all
        (fun n => n == 0) = true
    ∧ (componentConfusionMatrix (label_2_idx_map ["a", "b"]) [0] [0]).all
        (fun row => row.getD 1 0 == 0) = true :=
  (confusion_matrix_is_KxK ["a", "b"] [0] [0] (by decide)).2.2.2 1 "b"
    (by decide) (by decide) (by decide)

/-- The first element surviving `dropWhile` fails the predicate. -/
theorem dropWhile_head_not {α : Type} (p : α → Bool) :
    ∀ (l : List α) (c : α) (rest : List α), l.dropWhile p = c :: rest → p c = false := by
  intro l
  induction l with
  | nil => intro c rest h; simp [List.dropWhile] at h
  | cons a t ih =>
      intro c rest h
      rw [List.dropWhile_cons] at h
      by_cases hpa : p a = true
      · rw [if_pos hpa] at h
        exact ih c rest h
      · rw [if_neg hpa] at h
        injection h with h1 _
        subst h1
        simpa using hpa

/-- Stripping trailing hyphens removes a suffix: the original list is the
stripped list followed by the removed hyphens. -/
theorem rstripHyphens_eq (l : List Char) :
    l = rstripHyphens l ++ (l.reverse.takeWhile (fun c => c == '-')).reverse := by
  conv_lhs => rw [← List.reverse_reverse l,
    ← List.takeWhile_append_dropWhile (fun c => c == '-') l.reverse]
  rw [List.reverse_append]
  rfl

/-- A lowercase letter or digit is not a hyphen. -/
theorem isLowerAlnum_ne_hyphen {c : Char} (h : isLowerAlnum c = true) :
    (c == '-') = false := by
  by_cases hc : c = '-'
  · subst hc
    exact absurd h (by decide)
  · exact beq_eq_false_iff_ne.mpr hc

/-- Stripping trailing hyphens keeps a list containing a non-hyphen nonempty. -/
theorem rstripHyphens_ne_nil {l : List Char} {c : Char} (hc : c ∈ l)
    (hval : (c == '-') = false) : rstripHyphens l ≠ [] := by
  intro h
  have hd : l.reverse.dropWhile (fun c => c == '-') = [] := by
    have h2 := congrArg List.reverse h
    simpa [rstripHyphens] using h2
  rw [List.dropWhile_eq_nil_iff] at hd
  have h3 := hd c (List.mem_reverse.mpr hc)
  rw [hval] at h3
  exact Bool.false_ne_true h3

/-- Every character of the sanitized list is in `[a-z0-9-]`. -/
theorem sanitize_valid (s : List Char) :
    ∀ c ∈ sanitize s, isValidExperimentChar c = true := by
  intro c hc
  rw [sanitize] at hc
  obtain ⟨a, _, rfl⟩ := List.mem_map.mp hc
  by_cases h : isValidExperimentChar a = true
  · rw [if_pos h]
    exact h
  · rw [if_neg h]
    decide

/-- After the front guard, the list starts with a lowercase letter or digit
and all its characters stay in `[a-z0-9-]`. -/
theorem frontGuard_spec (l : List Char)
    (hval : ∀ c ∈ l, isValidExperimentChar c = true) :
    ∃ h tl, frontGuard l = h :: tl ∧ isLowerAlnum h = true
      ∧ ∀ c ∈ frontGuard l, isValidExperimentChar c = true := by
  cases l with
  | nil =>
      refine ⟨'a', [], rfl, by decide, ?_⟩
      intro c hc
      have : c = 'a' := by simpa [frontGuard] using hc
      subst this
      decide
  | cons a t =>
      by_cases ha : isLowerAlnum a = true
      · refine ⟨a, t, by simp [frontGuard, ha], ha, ?_⟩
        intro c hc
        simp only [frontGuard, ha, if_true] at hc
        exact hval c hc
      · have hfg : frontGuard (a :: t) = 'a' :: a :: t := by simp [frontGuard, ha]
        refine ⟨'a', a :: t, hfg, by decide, ?_⟩
        intro c hc
        rw [hfg] at hc
        rcases List.mem_cons.mp hc with h1 | h2
        · subst h1
          decide
        · exact hval c h2

/-- Well-formedness of `rstripHyphens` applied to a nonempty list over
`[a-z0-9-]` whose head is a lowercase letter or digit. -/
theorem rstripHyphens_spec (t : List Char) (h : Char) (tl : List Char)
    (ht_cons : t = h :: tl) (hh : isLowerAlnum h = true)
    (hmem : ∀ c ∈ t, isValidExperimentChar c = true) (hlen : t.length ≤ 128) :
    (rstripHyphens t).isEmpty = false
    ∧ (rstripHyphens t).length ≤ 128
    ∧ (rstripHyphens t).all isValidExperimentChar = true
    ∧ (rstripHyphens t).head?.all isLowerAlnum = true
    ∧ (rstripHyphens t).getLast?.all (fun c => !(c == '-')) = true := by
  have hh_mem : h ∈ t := by rw [ht_cons]; exact List.mem_cons_self h tl
  have hh_ne : (h == '-') = false := isLowerAlnum_ne_hyphen hh
  have hne : rstripHyphens t ≠ [] := rstripHyphens_ne_nil hh_mem hh_ne
  have happ := rstripHyphens_eq t
  refine ⟨?_, ?_, ?_, ?_, ?_⟩
  · cases hr : rstripHyphens t with
    | nil => exact absurd hr hne
    | cons a b => rfl
  · have hle : (rstripHyphens t).length ≤ t.length := by
      conv_rhs => rw [happ]
      rw [List.length_append]
      omega
    omega
  · rw [List.all_eq_true]
    intro c hc
    apply hmem
    rw [happ]
    exact List.mem_append_left _ hc
  · cases hr : rstripHyphens t with
    | nil => exact absurd hr hne
    | cons c0 r' =>
        have hsplit : t = c0 :: (r' ++ (t.reverse.takeWhile (fun c => c == '-')).reverse) := by
          conv_lhs => rw [happ, hr]
          rfl
        rw [ht_cons] at hsplit
        injection hsplit with h1 _
        subst h1
        exact hh
  · cases hd : t.reverse.dropWhile (fun c => c == '-') with
    | nil =>
        exact absurd (by rw [rstripHyphens, hd]; rfl) hne
    | cons c0 rest =>
        have hpc : (c0 == '-') = false :=
          dropWhile_head_not (fun c => c == '-') t.reverse c0 rest hd
        have hlast : (rstripHyphens t).getLast? = some c0 := by
          rw [rstripHyphens, hd, List.getLast?_reverse]
          rfl
        rw [hlast]
        simp [hpc]

/-- Well-formedness of `build_experiment_name_core`. -/
theorem build_experiment_name_core_spec (s : List Char) :
    (build_experiment_name_core s).isEmpty = false
    ∧ (build_experiment_name_core s).length ≤ 128
    ∧ (build_experiment_name_core s).all isValidExperimentChar = true
    ∧ (build_experiment_name_core s).head?.all isLowerAlnum = true
    ∧ (build_experiment_name_core s).getLast?.all (fun c => !(c == '-')) = true := by
  obtain ⟨h, tl, hfg, hha, hmem⟩ := frontGuard_spec (sanitize s) (sanitize_valid s)
  have ht_cons : (frontGuard (sanitize s)).take 128 = h :: tl.take 127 := by
    rw [hfg, show (128 : Nat) = 127 + 1 from rfl, List.take_succ_cons]
  have ht_mem : ∀ c ∈ (frontGuard (sanitize s)).take 128, isValidExperimentChar c = true :=
    fun c hc => hmem c (List.take_subset 128 (frontGuard (sanitize s)) hc)
  have ht_len : ((frontGuard (sanitize s)).take 128).length ≤ 128 :=
    List.length_take_le 128 (frontGuard (sanitize s))
  exact rstripHyphens_spec ((frontGuard (sanitize s)).take 128) h (tl.take 127)
    ht_cons hha ht_mem ht_len

/-- Claim C10: for every input string, `build_experiment_name` returns a
non-empty string of at most 128 characters drawn from lowercase letters,
digits and hyphens, starting with a lowercase letter or digit and not ending
with a hyphen. -/
theorem build_experiment_name_wellformed (s : String) :
    (build_experiment_name s).data.isEmpty = false
    ∧ (build_experiment_name s).data.length ≤ 128
    ∧ (build_experiment_name s).data.all isValidExperimentChar = true
    ∧ (build_experiment_name s).data.head?.all isLowerAlnum = true
    ∧ (build_experiment_name s).data.getLast?.all (fun c => !(c == '-')) = true :=
  build_experiment_name_core_spec s.data

end ComplaintPipeline
